import Mathlib

/-!
Shallow embedding of `src/bootstrap.py` (Spectra-Processing-Tool launcher).

The script resolves the latest commit of a GitHub repository, installs its
zipball into a per-revision directory (`App/versions/<sha>`), prepares a
virtual environment inside the installed copy, optionally seeds a user data
file, records the current version in `current.json`, and launches the app.

The embedding models the mutable world the script touches (the pointer file,
the store of installed revisions, the set of prepared venvs, the user data
file) as an explicit `State`, the external world (network answers, subprocess
outcomes, archive contents) as an `Env` of oracles, and every externally
visible action as an `Effect` accumulated in a trace.  Python exceptions that
escape a step become `Except.error` values of `BootError`.
-/

set_option autoImplicit false

namespace Bootstrap

/-- The persisted record in `current.json`: `{"sha": ..., "path": ...}`
(`write_current`, bootstrap.py lines 84-88). -/
structure PointerRecord where
  sha : String
  path : String
  deriving DecidableEq, Repr

/-- The on-disk condition of the pointer file `CURRENT_FILE`: missing,
present but not parseable as JSON, or a parsed record. -/
inductive PointerFile where
  | absent
  | corrupt
  | record (r : PointerRecord)
  deriving DecidableEq, Repr

/-- A top-level entry of the extracted zipball (one member of
`tmp.iterdir()` in `install_from_commit_zip`); `content` abstracts the
subtree rooted at the entry. -/
structure TopEntry where
  name : String
  isDir : Bool
  content : String
  deriving DecidableEq, Repr

/-- The mutable world state touched by the script. -/
structure State where
  /-- Condition of `CURRENT_FILE` (`current.json`). -/
  pointer : PointerFile
  /-- Installed revisions: association list from sha to the abstract content
  of `VERSIONS_DIR/<sha>`.  A sha is a key here iff that directory exists. -/
  store : List (String × String)
  /-- Existing directories other than store entries (a pointer may reference
  an arbitrary path). -/
  extraDirs : List String
  /-- Project directories `p` for which the venv interpreter
  `p/.venv/bin/python` already exists. -/
  venvs : List String
  /-- Content of `DATA_DIR/fluorophor_data.txt`; `none` if the file is
  missing. -/
  userData : Option String
  deriving DecidableEq, Repr

/-- Oracles for the external world: network answers, archive contents,
subprocess outcomes, seed-source availability, and the app's exit code. -/
structure Env where
  /-- `http_json(repo_api_url(""))` succeeds. -/
  defaultBranchOk : Bool
  defaultBranch : String
  /-- `http_json(repo_api_url("/commits?..."))` succeeds. -/
  commitsOk : Bool
  /-- The returned commit list is empty. -/
  commitsEmpty : Bool
  latestSha : String
  /-- `download_bytes` of the zipball succeeds. -/
  fetchOk : Bool
  /-- Top-level entries of the extracted zipball, in iteration order. -/
  archive : List TopEntry
  /-- `python -m venv` succeeds. -/
  venvCreateOk : Bool
  /-- `pip install --upgrade pip setuptools wheel` succeeds. -/
  pipUpgradeOk : Bool
  /-- `pip install .` succeeds. -/
  pipInstallOk : Bool
  /-- `<installed>/src/spectra_processing/resources/fluorophor_data.txt`
  exists in the installed copy. -/
  seed1 : Bool
  /-- `<installed>/fluorophor_data.txt` exists in the installed copy. -/
  seed2 : Bool
  /-- Content of the seed source file that would be copied. -/
  seedContent : String
  /-- Exit code of the launched application. -/
  appExit : Int
  deriving DecidableEq, Repr

/-- Externally visible actions, recorded in order. -/
inductive Effect where
  /-- An HTTP request to the GitHub API (`http_json`). -/
  | providerCall (endpoint : String)
  /-- Download of the zipball for a sha (`download_bytes`). -/
  | fetchArchive (sha : String)
  /-- Extraction of the zipball (`extract_zip`). -/
  | extractArchive
  /-- `shutil.copytree` of the extracted root into `VERSIONS_DIR/<sha>`. -/
  | copyTree (sha : String)
  /-- A subprocess invocation (`venv`, `pipUpgrade`, `pipInstall`). -/
  | runSubprocess (cmd : String)
  /-- `shutil.copy2` of the seed file into `DATA_DIR`. -/
  | seedCopy
  /-- The warning printed when no seed source is found. -/
  | seedWarn
  /-- `write_current`: the pointer file is (re)written for this sha. -/
  | writePointer (sha : String)
  /-- `subprocess.call` of the application entry point. -/
  | launch (py : String)
  deriving DecidableEq, Repr

/-- Errors that abort a run (escaping Python exceptions / `SystemExit`). -/
inductive BootError where
  /-- `urllib` failure in `http_json` or `download_bytes`. -/
  | providerUnavailable
  /-- `RuntimeError` from `get_latest_commit_sha`: empty commit list. -/
  | noCommits (branch : String)
  /-- `RuntimeError` from `install_from_commit_zip`: no extracted directory. -/
  | archiveNoRoot
  /-- `CalledProcessError` from a `check=True` subprocess. -/
  | subprocessFailed (cmd : String)
  /-- `json.JSONDecodeError` escaping `read_current`. -/
  | corruptState
  /-- `SystemExit` in the `--no-update` path: nothing installed. -/
  | noInstallFound
  deriving DecidableEq, Repr

/-- `VERSIONS_DIR / sha` (relative to `DOCS_ROOT`). -/
def versionsPath (sha : String) : String :=
  "App/versions/" ++ sha

/-- The venv interpreter path `ensure_venv` probes and returns
(`project_dir/.venv/bin/python` on non-Windows). -/
def pyPath (projectDir : String) : String :=
  projectDir ++ "/.venv/bin/python"

/-- `VERSIONS_DIR/<sha>` exists, i.e. `(VERSIONS_DIR / sha).exists()`. -/
def storeExists (s : State) (sha : String) : Bool :=
  (s.store.lookup sha).isSome

/-- A path exists on disk: it is an installed store entry or one of the
other existing directories. -/
def pathExists (s : State) (p : String) : Bool :=
  s.store.any (fun e => versionsPath e.1 == p) || s.extraDirs.contains p

/-- `read_current` (bootstrap.py lines 78-81): `None` when the file is
missing; a `json.loads` failure escapes as `corruptState`. -/
def read_current (s : State) : Except BootError (Option PointerRecord) :=
  match s.pointer with
  | .absent => .ok none
  | .corrupt => .error .corruptState
  | .record r => .ok (some r)

/-- `write_current` (lines 84-88): overwrite the pointer file with the given
sha and install path. -/
def write_current (s : State) (sha : String) (installPath : String) : State :=
  { s with pointer := .record ⟨sha, installPath⟩ }

/-- `get_default_branch` (lines 101-105); `HARDCODE_DEFAULT_BRANCH` is
`None` in the source, so the API is always queried. -/
def get_default_branch (env : Env) : Except BootError String × List Effect :=
  if env.defaultBranchOk then
    (.ok env.defaultBranch, [.providerCall "repo"])
  else
    (.error .providerUnavailable, [.providerCall "repo"])

/-- `get_latest_commit_sha` (lines 108-113): most recent commit on the
branch; `RuntimeError` when the list is empty. -/
def get_latest_commit_sha (env : Env) (branch : String) :
    Except BootError String × List Effect :=
  if env.commitsOk then
    if env.commitsEmpty then
      (.error (.noCommits branch), [.providerCall "commits"])
    else
      (.ok env.latestSha, [.providerCall "commits"])
  else
    (.error .providerUnavailable, [.providerCall "commits"])

/-- `install_from_commit_zip` (lines 116-140): no-op when
`VERSIONS_DIR/<sha>` exists; otherwise download the zipball, extract it to
a scratch directory, take the first top-level directory (`roots[0]`;
`RuntimeError` when there is none), and copy it to the final key.
Returns the installed directory path. -/
def install_from_commit_zip (env : Env) (s : State) (sha : String) :
    Except BootError String × State × List Effect :=
  if storeExists s sha then
    (.ok (versionsPath sha), s, [])
  else if env.fetchOk then
    match env.archive.filter (fun t => t.isDir) with
    | [] =>
      (.error .archiveNoRoot, s, [.fetchArchive sha, .extractArchive])
    | root :: _ =>
      (.ok (versionsPath sha),
       { s with store := (sha, root.content) :: s.store },
       [.fetchArchive sha, .extractArchive, .copyTree sha])
  else
    (.error .providerUnavailable, s, [.fetchArchive sha])

/-- `ensure_venv` (lines 143-154): if `project_dir/.venv/bin/python` exists,
return it with no side effect; otherwise create the venv and upgrade pip
(two `check=True` subprocesses), then return the interpreter path. -/
def ensure_venv (env : Env) (s : State) (projectDir : String) :
    Except BootError String × State × List Effect :=
  if s.venvs.contains projectDir then
    (.ok (pyPath projectDir), s, [])
  else if env.venvCreateOk then
    if env.pipUpgradeOk then
      (.ok (pyPath projectDir),
       { s with venvs := projectDir :: s.venvs },
       [.runSubprocess "venv", .runSubprocess "pipUpgrade"])
    else
      (.error (.subprocessFailed "pipUpgrade"),
       { s with venvs := projectDir :: s.venvs },
       [.runSubprocess "venv", .runSubprocess "pipUpgrade"])
  else
    (.error (.subprocessFailed "venv"), s, [.runSubprocess "venv"])

/-- `pip_install_project` (lines 157-162): `pip install .` in the installed
copy, `check=True`. -/
def pip_install_project (env : Env) (s : State) : Except BootError Unit × State × List Effect :=
  if env.pipInstallOk then
    (.ok (), s, [.runSubprocess "pipInstall"])
  else
    (.error (.subprocessFailed "pipInstall"), s, [.runSubprocess "pipInstall"])

/-- `seed_data_if_missing` (lines 165-183): return immediately if the
destination data file exists; otherwise copy the first available candidate
source, or print a warning when neither exists.  Never raises. -/
def seed_data_if_missing (env : Env) (s : State) : State × List Effect :=
  match s.userData with
  | some _ => (s, [])
  | none =>
    if env.seed1 then
      ({ s with userData := some env.seedContent }, [.seedCopy])
    else if env.seed2 then
      ({ s with userData := some env.seedContent }, [.seedCopy])
    else
      (s, [.seedWarn])

/-- `run_app` (lines 186-192): launch the app with the given interpreter and
forward its exit status. -/
def run_app (env : Env) (s : State) (py : String) : Int × State × List Effect :=
  (env.appExit, s, [.launch py])

/-- CLI flags (`--no-update`, `--force`). -/
structure Args where
  noUpdate : Bool
  force : Bool
  deriving DecidableEq, Repr

/-- The `needs_install` expression of bootstrap.py line 211:
`args.force or (current_sha != latest_sha) or (not current_path) or
(not current_path.exists())` — the last two disjuncts merged here because
Python short-circuits and never calls `.exists()` on `None`. -/
def needs_install (force : Bool) (current : Option PointerRecord)
    (latestSha : String) (s : State) : Bool :=
  force || !((current.map fun r => r.sha) == some latestSha) ||
    (match current.map fun r => r.path with
     | none => true
     | some p => !(pathExists s p))

/-- The decision formula as the specification words it:
`force OR current_revision != latest_revision OR current_pointer_absent OR
current_artifact_missing_on_disk`. -/
def needs_install_spec (force : Bool) (current : Option PointerRecord)
    (latestSha : String) (s : State) : Bool :=
  force || !((current.map fun r => r.sha) == some latestSha) ||
    current.isNone ||
    (match current with
     | none => true
     | some r => !(pathExists s r.path))

/-- `main` (lines 195-232).  Returns the process outcome (exit code or
escaping error), the final world state, and the trace of effects. -/
def main (env : Env) (args : Args) (s : State) :
    Except BootError Int × State × List Effect :=
  match read_current s with
  | .error e => (.error e, s, [])
  | .ok current =>
    if !args.noUpdate then
      match get_default_branch env with
      | (.error e, fx1) => (.error e, s, fx1)
      | (.ok branch, fx1) =>
        match get_latest_commit_sha env branch with
        | (.error e, fx2) => (.error e, s, fx1 ++ fx2)
        | (.ok latestSha, fx2) =>
          if needs_install args.force current latestSha s then
            match install_from_commit_zip env s latestSha with
            | (.error e, s1, fx3) => (.error e, s1, fx1 ++ fx2 ++ fx3)
            | (.ok installedDir, s1, fx3) =>
              match ensure_venv env s1 installedDir with
              | (.error e, s2, fx4) => (.error e, s2, fx1 ++ fx2 ++ fx3 ++ fx4)
              | (.ok py, s2, fx4) =>
                match pip_install_project env s2 with
                | (.error e, s3, fx5) =>
                  (.error e, s3, fx1 ++ fx2 ++ fx3 ++ fx4 ++ fx5)
                | (.ok _, s3, fx5) =>
                  let s4fx := seed_data_if_missing env s3
                  let s5 := write_current s4fx.1 latestSha installedDir
                  let r := run_app env s5 py
                  (.ok r.1, r.2.1,
                   fx1 ++ fx2 ++ fx3 ++ fx4 ++ fx5 ++ s4fx.2 ++
                     [.writePointer latestSha] ++ r.2.2)
          else
            -- needs_install is false only when current is a record, so the
            -- empty-string default is never taken (mirrors Python, which
            -- only reaches this branch with a non-None current_path).
            match ensure_venv env s ((current.map fun r => r.path).getD "") with
            | (.error e, s1, fx3) => (.error e, s1, fx1 ++ fx2 ++ fx3)
            | (.ok py, s1, fx3) =>
              let r := run_app env s1 py
              (.ok r.1, r.2.1, fx1 ++ fx2 ++ fx3 ++ r.2.2)
    else
      match current with
      | none => (.error .noInstallFound, s, [])
      | some rec0 =>
        if !(pathExists s rec0.path) then
          (.error .noInstallFound, s, [])
        else
          match ensure_venv env s rec0.path with
          | (.error e, s1, fx3) => (.error e, s1, fx3)
          | (.ok py, s1, fx3) =>
            let r := run_app env s1 py
            (.ok r.1, r.2.1, fx3 ++ r.2.2)

/-- An effect contacts the Revision Provider (GitHub): an API call or an
archive download. -/
def isProviderEffect : Effect → Bool
  | .providerCall _ => true
  | .fetchArchive _ => true
  | _ => false

/-- The trace contains at least one network contact. -/
def contactsProvider (fx : List Effect) : Bool :=
  fx.any isProviderEffect

/-! ### Concrete fixtures used to evaluate the theorems on closed inputs -/

/-- A healthy external world: provider reachable, latest commit `abc123`,
well-formed zipball with a single top-level directory, working subprocesses,
packaged seed file present, app exits 0. -/
def envOk : Env :=
  { defaultBranchOk := true
    defaultBranch := "main"
    commitsOk := true
    commitsEmpty := false
    latestSha := "abc123"
    fetchOk := true
    archive := [⟨"Spectra-Processing-Tool-abc123", true, "tree0"⟩]
    venvCreateOk := true
    pipUpgradeOk := true
    pipInstallOk := true
    seed1 := true
    seed2 := false
    seedContent := "fluor"
    appExit := 0 }

/-- Like `envOk` but the GitHub API is unreachable. -/
def envDown : Env :=
  { envOk with defaultBranchOk := false }

/-- Like `envOk` but the zipball extracts to two top-level directories. -/
def envTwoRoots : Env :=
  { envOk with archive := [⟨"rootA", true, "ca"⟩, ⟨"rootB", true, "cb"⟩] }

/-- Like `envOk` but no seed source file exists in the installed copy. -/
def envNoSeed : Env :=
  { envOk with seed1 := false, seed2 := false }

/-- Like `envOk` but the latest revision is `xyz789`. -/
def envScen5 : Env :=
  { envOk with latestSha := "xyz789" }

/-- A fresh machine: nothing installed, no pointer, no user data. -/
def sEmpty : State :=
  { pointer := .absent, store := [], extraDirs := [], venvs := [], userData := none }

/-- A machine with an older revision `old1` installed and recorded. -/
def sPrior : State :=
  { pointer := .record ⟨"old1", "App/versions/old1"⟩
    store := [("old1", "tree-old")]
    extraDirs := []
    venvs := []
    userData := none }

/-- A machine whose pointer file exists but is not parseable. -/
def sCorrupt : State :=
  { pointer := .corrupt, store := [], extraDirs := [], venvs := [], userData := none }

/-- Scenario 5: the pointer records `xyz789` at its store path, but the
artifact directory has been deleted externally. -/
def sScen5 : State :=
  { pointer := .record ⟨"xyz789", "App/versions/xyz789"⟩
    store := []
    extraDirs := []
    venvs := []
    userData := none }

/-- A machine fully up to date at `abc123`, venv prepared, user data
present. -/
def sCurrent : State :=
  { pointer := .record ⟨"abc123", "App/versions/abc123"⟩
    store := [("abc123", "tree0")]
    extraDirs := []
    venvs := ["App/versions/abc123"]
    userData := some "user-data"
    }

/-- A machine with the `abc123` artifact on disk but no pointer, no venv and
no user data. -/
def sStoreOnly : State :=
  { pointer := .absent
    store := [("abc123", "tree0")]
    extraDirs := []
    venvs := []
    userData := none }

/-! ### Frame lemmas: which parts of the state each operation can touch -/

theorem install_from_commit_zip_pointer (env : Env) (s : State) (sha : String) :
    (install_from_commit_zip env s sha).2.1.pointer = s.pointer := by
  unfold install_from_commit_zip
  split
  · rfl
  · split
    · split <;> rfl
    · rfl

theorem ensure_venv_pointer (env : Env) (s : State) (p : String) :
    (ensure_venv env s p).2.1.pointer = s.pointer := by
  unfold ensure_venv
  split
  · rfl
  · split
    · split <;> rfl
    · rfl

theorem pip_install_project_state (env : Env) (s : State) :
    (pip_install_project env s).2.1 = s := by
  unfold pip_install_project
  split <;> rfl

theorem seed_data_if_missing_pointer (env : Env) (s : State) :
    (seed_data_if_missing env s).1.pointer = s.pointer := by
  unfold seed_data_if_missing
  split
  · rfl
  · split
    · rfl
    · split <;> rfl

theorem seed_data_if_missing_store (env : Env) (s : State) :
    (seed_data_if_missing env s).1.store = s.store := by
  unfold seed_data_if_missing
  split
  · rfl
  · split
    · rfl
    · split <;> rfl

theorem seed_data_if_missing_effects (env : Env) (s : State) (e : Effect)
    (h : e ∈ (seed_data_if_missing env s).2) :
    e = Effect.seedCopy ∨ e = Effect.seedWarn := by
  unfold seed_data_if_missing at h
  split at h
  · simp at h
  · split at h
    · simp at h
      exact Or.inl h
    · split at h
      · simp at h
        exact Or.inl h
      · simp at h
        exact Or.inr h

theorem seed_data_if_missing_miss (env : Env) (s : State)
    (hud : s.userData = none) (h1 : env.seed1 = false) (h2 : env.seed2 = false) :
    seed_data_if_missing env s = (s, [Effect.seedWarn]) := by
  unfold seed_data_if_missing
  rw [hud]
  simp [h1, h2]

theorem ensure_venv_success (env : Env) (s : State) (p : String)
    (hvc : env.venvCreateOk = true) (hpu : env.pipUpgradeOk = true) :
    ∃ s2 fx4, ensure_venv env s p = (Except.ok (pyPath p), s2, fx4) ∧
      s2.store = s.store ∧ s2.pointer = s.pointer ∧ s2.userData = s.userData ∧
      (s.venvs.contains p = false → Effect.runSubprocess "venv" ∈ fx4) ∧
      (∀ e, e ∈ fx4 → ∃ c, e = Effect.runSubprocess c) := by
  unfold ensure_venv
  by_cases h : s.venvs.contains p = true
  · refine ⟨s, [], ?_, rfl, rfl, rfl, ?_, by simp⟩
    · rw [if_pos h]
    · intro hf
      rw [h] at hf
      exact Bool.noConfusion hf
  · refine ⟨{ s with venvs := p :: s.venvs },
      [Effect.runSubprocess "venv", Effect.runSubprocess "pipUpgrade"],
      ?_, rfl, rfl, rfl, fun _ => by simp, ?_⟩
    · rw [if_neg h, if_pos hvc, if_pos hpu]
    · intro e he
      simp at he
      rcases he with rfl | rfl
      · exact ⟨"venv", rfl⟩
      · exact ⟨"pipUpgrade", rfl⟩

theorem install_noop (env : Env) (s : State) (sha : String)
    (h : storeExists s sha = true) :
    install_from_commit_zip env s sha = (Except.ok (versionsPath sha), s, []) := by
  unfold install_from_commit_zip
  simp [h]

theorem install_no_root (env : Env) (s : State) (sha : String)
    (hne : storeExists s sha = false) (hf : env.fetchOk = true)
    (hr : env.archive.filter (fun t => t.isDir) = []) :
    install_from_commit_zip env s sha =
      (Except.error BootError.archiveNoRoot, s,
       [Effect.fetchArchive sha, Effect.extractArchive]) := by
  unfold install_from_commit_zip
  simp [hne, hf, hr]

theorem install_commits_first_root (env : Env) (s : State) (sha : String)
    (hne : storeExists s sha = false) (hf : env.fetchOk = true)
    (root : TopEntry) (rest : List TopEntry)
    (hr : env.archive.filter (fun t => t.isDir) = root :: rest) :
    install_from_commit_zip env s sha =
      (Except.ok (versionsPath sha),
       { s with store := (sha, root.content) :: s.store },
       [Effect.fetchArchive sha, Effect.extractArchive, Effect.copyTree sha]) := by
  unfold install_from_commit_zip
  simp [hne, hf, hr]

theorem storeExists_cons_self (s : State) (sha c : String) :
    storeExists { s with store := (sha, c) :: s.store } sha = true := by
  unfold storeExists
  simp [List.lookup]

theorem store_lookup_any (l : List (String × String)) (sha : String)
    (h : (l.lookup sha).isSome = true) :
    l.any (fun e => versionsPath e.1 == versionsPath sha) = true := by
  induction l with
  | nil => simp [List.lookup] at h
  | cons a as ih =>
    rw [List.lookup] at h
    by_cases hk : sha == a.1
    · have : a.1 = sha := (eq_of_beq hk).symm
      simp [List.any, this]
    · rw [List.any]
      have h2 : (as.lookup sha).isSome = true := by
        rw [show (sha == a.1) = false from by simpa using hk] at h
        exact h
      simp [ih h2]

theorem pathExists_of_storeExists (s : State) (sha : String)
    (h : storeExists s sha = true) :
    pathExists s (versionsPath sha) = true := by
  unfold storeExists at h
  unfold pathExists
  simp [store_lookup_any s.store sha h]

/-- The decision expression agrees with the specification formula. -/
theorem needs_install_eq_spec (force : Bool) (current : Option PointerRecord)
    (latestSha : String) (s : State) :
    needs_install force current latestSha s =
      needs_install_spec force current latestSha s := by
  cases current <;> simp [needs_install, needs_install_spec]

theorem needs_install_of_artifact_missing (force : Bool) (r : PointerRecord)
    (latestSha : String) (s : State)
    (hmiss : pathExists s r.path = false) :
    needs_install force (some r) latestSha s = true := by
  simp [needs_install, hmiss]

theorem needs_install_absent (force : Bool) (latestSha : String) (s : State) :
    needs_install force none latestSha s = true := by
  simp [needs_install]

theorem needs_install_force (current : Option PointerRecord)
    (latestSha : String) (s : State) :
    needs_install true current latestSha s = true := by
  simp [needs_install]

theorem ensure_venv_no_provider (env : Env) (s : State) (p : String) :
    contactsProvider (ensure_venv env s p).2.2 = false := by
  unfold ensure_venv contactsProvider
  split
  · rfl
  · split
    · split <;> rfl
    · rfl

/-- The successful `Installing` path of `main`, characterized given the
outcomes of its three fallible sub-steps. -/
theorem main_install_run_ok (env : Env) (force : Bool) (s : State)
    (current : Option PointerRecord) (d : String) (s1 s2 : State) (py : String)
    (fx3 fx4 : List Effect)
    (hrc : read_current s = Except.ok current)
    (hdb : env.defaultBranchOk = true) (hco : env.commitsOk = true)
    (hce : env.commitsEmpty = false)
    (hni : needs_install force current env.latestSha s = true)
    (hin : install_from_commit_zip env s env.latestSha = (Except.ok d, s1, fx3))
    (hev : ensure_venv env s1 d = (Except.ok py, s2, fx4))
    (hpi : env.pipInstallOk = true) :
    main env ⟨false, force⟩ s =
      (Except.ok env.appExit,
       write_current (seed_data_if_missing env s2).1 env.latestSha d,
       [Effect.providerCall "repo"] ++ [Effect.providerCall "commits"] ++ fx3 ++
         fx4 ++ [Effect.runSubprocess "pipInstall"] ++
         (seed_data_if_missing env s2).2 ++
         [Effect.writePointer env.latestSha] ++ [Effect.launch py]) := by
  unfold main get_default_branch get_latest_commit_sha pip_install_project
    run_app
  simp [hrc, hdb, hco, hce, hni, hin, hev, hpi]

/-! ### C1: the pointer survives every failing run -/

/-- C1: the Current-Version Pointer is written only after install and
environment preparation have both succeeded — whenever `main` ends in an
error (provider query, archive fetch, extraction, copy into the store,
venv creation, or dependency installation failed), the persisted pointer
record afterwards equals the value it had before the run. -/
theorem pointer_unchanged_on_failure (env : Env) (args : Args) (s : State)
    (e : BootError) (s1 : State) (fx : List Effect)
    (h : main env args s = (Except.error e, s1, fx)) :
    s1.pointer = s.pointer := by
  unfold main at h
  split at h
  · simp only [Prod.mk.injEq] at h
    rw [← h.2.1]
  · split at h
    · split at h
      · simp only [Prod.mk.injEq] at h
        rw [← h.2.1]
      · split at h
        · simp only [Prod.mk.injEq] at h
          rw [← h.2.1]
        · split at h
          · split at h
            · rename_i e0 sx fxx heq3
              simp only [Prod.mk.injEq] at h
              rw [← h.2.1]
              exact (congrArg (fun t => t.2.1.pointer) heq3).symm.trans
                (install_from_commit_zip_pointer env s _)
            · rename_i installedDir sx fxx heq3
              split at h
              · rename_i e0 sy fyy heq4
                simp only [Prod.mk.injEq] at h
                rw [← h.2.1]
                have hv := (congrArg (fun t => t.2.1.pointer) heq4).symm.trans
                  (ensure_venv_pointer env sx installedDir)
                have hp := (congrArg (fun t => t.2.1.pointer) heq3).symm.trans
                  (install_from_commit_zip_pointer env s _)
                exact hv.trans hp
              · rename_i py sy fyy heq4
                split at h
                · rename_i e0 sz fzz heq5
                  simp only [Prod.mk.injEq] at h
                  rw [← h.2.1]
                  have hq := (congrArg (fun t => t.2.1.pointer) heq5).symm.trans
                    (congrArg State.pointer (pip_install_project_state env sy))
                  have hv := (congrArg (fun t => t.2.1.pointer) heq4).symm.trans
                    (ensure_venv_pointer env sx installedDir)
                  have hp := (congrArg (fun t => t.2.1.pointer) heq3).symm.trans
                    (install_from_commit_zip_pointer env s _)
                  exact hq.trans (hv.trans hp)
                · simp at h
          · split at h
            · rename_i e0 sx fxx heq4
              simp only [Prod.mk.injEq] at h
              rw [← h.2.1]
              exact (congrArg (fun t => t.2.1.pointer) heq4).symm.trans
                (ensure_venv_pointer env s _)
            · simp at h
    · split at h
      · simp only [Prod.mk.injEq] at h
        rw [← h.2.1]
      · split at h
        · simp only [Prod.mk.injEq] at h
          rw [← h.2.1]
        · split at h
          · rename_i e0 sx fxx heq4
            simp only [Prod.mk.injEq] at h
            rw [← h.2.1]
            exact (congrArg (fun t => t.2.1.pointer) heq4).symm.trans
              (ensure_venv_pointer env s _)
          · simp at h

/-- Witness for C1: with a prior record in place and the provider
unreachable, the failing run leaves the recorded pointer exactly as it
was. -/
theorem pointer_unchanged_on_failure_witness :
    (main envDown ⟨false, false⟩ sPrior).2.1.pointer =
      PointerFile.record ⟨"old1", "App/versions/old1"⟩ :=
  pointer_unchanged_on_failure envDown ⟨false, false⟩ sPrior
    BootError.providerUnavailable sPrior [Effect.providerCall "repo"] rfl

/-! ### C2: the needs_install decision formula -/

/-- C2: in update mode the decision to install follows exactly
`force OR current_revision != latest_revision OR current_pointer_absent OR
current_artifact_missing_on_disk`; in particular, when the recorded
revision equals the latest one but the recorded artifact path no longer
exists on disk, the decision is true and a fresh install (archive download
and new store entry) proceeds. -/
theorem needs_install_formula (force : Bool) (current : Option PointerRecord)
    (latestSha : String) (s : State) :
    needs_install force current latestSha s =
      needs_install_spec force current latestSha s
    ∧ (∀ r, current = some r → r.sha = latestSha →
        pathExists s r.path = false →
        needs_install force current latestSha s = true)
    ∧ (∀ (env : Env) (r : PointerRecord) (root : TopEntry)
        (rest : List TopEntry),
        s.pointer = PointerFile.record r → env.latestSha = latestSha →
        r.sha = latestSha → r.path = versionsPath r.sha →
        pathExists s r.path = false →
        env.defaultBranchOk = true → env.commitsOk = true →
        env.commitsEmpty = false → env.fetchOk = true →
        env.archive.filter (fun t => t.isDir) = root :: rest →
        env.venvCreateOk = true → env.pipUpgradeOk = true →
        env.pipInstallOk = true →
        Effect.fetchArchive latestSha ∈ (main env ⟨false, force⟩ s).2.2 ∧
          storeExists (main env ⟨false, force⟩ s).2.1 latestSha = true) := by
  refine ⟨needs_install_eq_spec force current latestSha s, ?_, ?_⟩
  · intro r hc hsha hmiss
    rw [hc]
    exact needs_install_of_artifact_missing force r latestSha s hmiss
  · intro env r root rest hrec henv hsha hpath hmiss hdb hco hce hf hroots
      hvc hpu hpi
    have hse : storeExists s latestSha = false := by
      by_contra hx
      have hx2 : storeExists s latestSha = true := by
        cases hy : storeExists s latestSha
        · exact absurd hy hx
        · rfl
      have := pathExists_of_storeExists s latestSha hx2
      rw [hpath, hsha] at hmiss
      rw [this] at hmiss
      exact Bool.noConfusion hmiss
    have hrc : read_current s = Except.ok (some r) := by
      unfold read_current
      rw [hrec]
    have hni : needs_install force (some r) env.latestSha s = true := by
      rw [henv]
      exact needs_install_of_artifact_missing force r latestSha s hmiss
    have hin := install_commits_first_root env s env.latestSha
      (by rw [henv]; exact hse) hf root rest hroots
    obtain ⟨s2, fx4, hev, hst, _, _, _, _⟩ :=
      ensure_venv_success env { s with store := (env.latestSha, root.content) :: s.store }
        (versionsPath env.latestSha) hvc hpu
    have hmain := main_install_run_ok env force s (some r)
      (versionsPath env.latestSha) _ s2 (pyPath (versionsPath env.latestSha))
      _ fx4 hrc hdb hco hce hni hin hev hpi
    rw [hmain]
    constructor
    · rw [henv]
      simp
    · unfold storeExists write_current
      have hs2 : (seed_data_if_missing env s2).1.store = s2.store :=
        seed_data_if_missing_store env s2
      simp only [hs2, hst]
      rw [henv]
      simp [List.lookup]

/-- Witness for C2 at scenario 5: pointer records `xyz789` at its store
path, the artifact was deleted externally, the provider still reports
`xyz789`: the decision is true and the run re-downloads the archive. -/
theorem needs_install_formula_witness :
    needs_install false (some ⟨"xyz789", "App/versions/xyz789"⟩) "xyz789"
        sScen5 = true ∧
      Effect.fetchArchive "xyz789" ∈ (main envScen5 ⟨false, false⟩ sScen5).2.2 :=
  ⟨(needs_install_formula false (some ⟨"xyz789", "App/versions/xyz789"⟩)
      "xyz789" sScen5).2.1 ⟨"xyz789", "App/versions/xyz789"⟩ rfl rfl rfl,
   ((needs_install_formula false (some ⟨"xyz789", "App/versions/xyz789"⟩)
      "xyz789" sScen5).2.2 envScen5 ⟨"xyz789", "App/versions/xyz789"⟩
      ⟨"Spectra-Processing-Tool-abc123", true, "tree0"⟩ [] rfl rfl rfl rfl rfl
      rfl rfl rfl rfl rfl rfl rfl rfl).1⟩

/-! ### C3: install is idempotent -/

/-- C3: when `Store[revision_id]` already exists, `install` is a no-op that
returns the existing directory — no archive fetch, no extraction, no store
modification (the state and the effect trace are untouched); and calling
install twice with the same revision produces one directory, identical both
times, with the second call doing nothing. -/
theorem install_idempotent (env : Env) (s : State) (sha : String) :
    (storeExists s sha = true →
      install_from_commit_zip env s sha = (Except.ok (versionsPath sha), s, []))
    ∧ (∀ d s1 fx, install_from_commit_zip env s sha = (Except.ok d, s1, fx) →
        d = versionsPath sha ∧
          install_from_commit_zip env s1 sha = (Except.ok d, s1, [])) := by
  constructor
  · intro h
    exact install_noop env s sha h
  · intro d s1 fx h
    unfold install_from_commit_zip at h
    split at h
    · rename_i hex
      simp only [Prod.mk.injEq, Except.ok.injEq] at h
      obtain ⟨hd, hs, -⟩ := h
      rw [← hd, ← hs]
      exact ⟨rfl, install_noop env s sha hex⟩
    · split at h
      · split at h
        · simp at h
        · rename_i root rest hr
          simp only [Prod.mk.injEq, Except.ok.injEq] at h
          obtain ⟨hd, hs, -⟩ := h
          rw [← hd, ← hs]
          exact ⟨rfl,
            install_noop env _ sha (storeExists_cons_self s sha root.content)⟩
      · simp at h

/-- Witness for C3: on a machine where `old1` is already installed, install
returns the existing directory untouched, and a fresh install of `abc123`
followed by a second install of `abc123` yields the same directory with the
second call doing nothing. -/
theorem install_idempotent_witness :
    install_from_commit_zip envOk sPrior "old1" =
      (Except.ok (versionsPath "old1"), sPrior, []) ∧
    install_from_commit_zip envOk
        { sPrior with store := ("abc123", "tree0") :: sPrior.store } "abc123" =
      (Except.ok (versionsPath "abc123"),
       { sPrior with store := ("abc123", "tree0") :: sPrior.store }, []) :=
  ⟨(install_idempotent envOk sPrior "old1").1 rfl,
   ((install_idempotent envOk sPrior "abc123").2 (versionsPath "abc123")
      { sPrior with store := ("abc123", "tree0") :: sPrior.store }
      [Effect.fetchArchive "abc123", Effect.extractArchive,
       Effect.copyTree "abc123"] rfl).2⟩

/-! ### C4: archive-layout failure (corrected) -/

/-- Counterexample to C4 as stated: an archive whose extraction yields two
top-level directories is claimed to fail with an `ArchiveLayoutError`, but
install succeeds, using the first directory. -/
theorem multi_root_install_no_error :
    (envTwoRoots.archive.filter (fun t => t.isDir)).length = 2 ∧
      install_from_commit_zip envTwoRoots sEmpty "abc123" =
        (Except.ok (versionsPath "abc123"),
         { sEmpty with store := [("abc123", "ca")] },
         [Effect.fetchArchive "abc123", Effect.extractArchive,
          Effect.copyTree "abc123"]) := by
  constructor
  · rfl
  · rfl

/-- C4 amended: install fails with the archive-layout error exactly when the
extracted archive contains zero top-level directories, committing no entry
at the final store key; when one or more top-level directories exist —
ambiguous layouts included — no error is raised and only the first
discovered directory is used. -/
theorem install_archive_layout (env : Env) (s : State) (sha : String)
    (hne : storeExists s sha = false) (hf : env.fetchOk = true) :
    (env.archive.filter (fun t => t.isDir) = [] →
      install_from_commit_zip env s sha =
        (Except.error BootError.archiveNoRoot, s,
         [Effect.fetchArchive sha, Effect.extractArchive]))
    ∧ (∀ root rest, env.archive.filter (fun t => t.isDir) = root :: rest →
        install_from_commit_zip env s sha =
          (Except.ok (versionsPath sha),
           { s with store := (sha, root.content) :: s.store },
           [Effect.fetchArchive sha, Effect.extractArchive,
            Effect.copyTree sha])) :=
  ⟨fun h0 => install_no_root env s sha hne hf h0,
   fun root rest hr => install_commits_first_root env s sha hne hf root rest hr⟩

/-- Witness for C4 amended: a zipball with no top-level directory aborts the
install and leaves the store without the new key; with two top-level
directories the first one is installed. -/
theorem install_archive_layout_witness :
    install_from_commit_zip { envOk with archive := [] } sEmpty "abc123" =
      (Except.error BootError.archiveNoRoot, sEmpty,
       [Effect.fetchArchive "abc123", Effect.extractArchive]) ∧
    install_from_commit_zip envTwoRoots sPrior "abc123" =
      (Except.ok (versionsPath "abc123"),
       { sPrior with store := ("abc123", "ca") :: sPrior.store },
       [Effect.fetchArchive "abc123", Effect.extractArchive,
        Effect.copyTree "abc123"]) :=
  ⟨(install_archive_layout { envOk with archive := [] } sEmpty "abc123" rfl
      rfl).1 rfl,
   (install_archive_layout envTwoRoots sPrior "abc123" rfl rfl).2
      ⟨"rootA", true, "ca"⟩ [⟨"rootB", true, "cb"⟩] rfl⟩

/-! ### C5: corrupt pointer file (corrected) -/

/-- Counterexample to C5 as stated: with a pointer file present but
unreadable, the orchestrator does not treat it as absent and trigger a
fresh install — the run aborts immediately with the parse error, with an
empty effect trace (no provider contact, no install step). -/
theorem corrupt_pointer_aborts_run :
    main envOk ⟨false, false⟩ sCorrupt =
      (Except.error BootError.corruptState, sCorrupt, []) := rfl

/-- C5 amended: an unreadable pointer record surfaces from `read` as a parse
failure, but the orchestrator does not recover from it: the error escapes
`main` in every mode, aborting the run with no effects and leaving the
state untouched, instead of treating the pointer as absent. -/
theorem corrupt_pointer_propagates (env : Env) (args : Args) (s : State)
    (h : s.pointer = PointerFile.corrupt) :
    read_current s = Except.error BootError.corruptState ∧
      main env args s = (Except.error BootError.corruptState, s, []) := by
  have hr : read_current s = Except.error BootError.corruptState := by
    unfold read_current
    rw [h]
  refine ⟨hr, ?_⟩
  unfold main
  rw [hr]

/-- Witness for C5 amended at a concrete corrupt state, in update mode. -/
theorem corrupt_pointer_propagates_witness :
    main envDown ⟨false, true⟩ sCorrupt =
      (Except.error BootError.corruptState, sCorrupt, []) :=
  (corrupt_pointer_propagates envDown ⟨false, true⟩ sCorrupt rfl).2

/-! ### C6: skip-update mode -/

/-- C6: with `--no-update` the orchestrator never contacts the Revision
Provider (no API call, no archive download, in any state); with no pointer
or with its recorded artifact path missing on disk it fails with the
no-install error; otherwise (working subprocesses) it runs the currently
recorded version, launching its interpreter and forwarding the app's exit
code. -/
theorem skip_update_behavior (env : Env) (s : State) (force : Bool) :
    contactsProvider (main env ⟨true, force⟩ s).2.2 = false
    ∧ (s.pointer = PointerFile.absent →
        (main env ⟨true, force⟩ s).1 = Except.error BootError.noInstallFound)
    ∧ (∀ r, s.pointer = PointerFile.record r → pathExists s r.path = false →
        (main env ⟨true, force⟩ s).1 = Except.error BootError.noInstallFound)
    ∧ (∀ r, s.pointer = PointerFile.record r → pathExists s r.path = true →
        env.venvCreateOk = true → env.pipUpgradeOk = true →
        (main env ⟨true, force⟩ s).1 = Except.ok env.appExit ∧
          Effect.launch (pyPath r.path) ∈ (main env ⟨true, force⟩ s).2.2) := by
  refine ⟨?_, ?_, ?_, ?_⟩
  · unfold main
    split
    · rfl
    · split
      · rename_i hup
        simp at hup
      · split
        · rfl
        · split
          · rfl
          · split
            · rename_i heq
              exact (congrArg (fun t => contactsProvider t.2.2) heq).symm.trans
                (ensure_venv_no_provider env s _)
            · rename_i heq
              have hnp := (congrArg (fun t => contactsProvider t.2.2)
                heq).symm.trans (ensure_venv_no_provider env s _)
              simp only [contactsProvider] at hnp
              unfold run_app contactsProvider
              simp only [List.any_append, List.any_cons, List.any_nil,
                isProviderEffect, Bool.or_false, Bool.false_or]
              exact hnp
  · intro hp
    have hrc : read_current s = Except.ok none := by
      unfold read_current
      rw [hp]
    unfold main
    rw [hrc]
    simp
  · intro r hp hmiss
    have hrc : read_current s = Except.ok (some r) := by
      unfold read_current
      rw [hp]
    unfold main
    rw [hrc]
    simp [hmiss]
  · intro r hp hpe hvc hpu
    have hrc : read_current s = Except.ok (some r) := by
      unfold read_current
      rw [hp]
    obtain ⟨s2, fx4, hev, -, -, -, -, -⟩ := ensure_venv_success env s r.path hvc hpu
    unfold main
    rw [hrc]
    unfold run_app
    simp [hpe, hev]

/-- Witness for C6: on a fresh machine (no pointer) skip-update fails with
the no-install error even with the network down; in scenario-5 state (path
deleted) it also fails; on an up-to-date machine it runs the recorded
version and returns the app's exit code. -/
theorem skip_update_behavior_witness :
    (main envDown ⟨true, false⟩ sEmpty).1 =
        Except.error BootError.noInstallFound
    ∧ (main envOk ⟨true, false⟩ sScen5).1 =
        Except.error BootError.noInstallFound
    ∧ (main envOk ⟨true, false⟩ sCurrent).1 = Except.ok 0 :=
  ⟨(skip_update_behavior envDown sEmpty false).2.1 rfl,
   (skip_update_behavior envOk sScen5 false).2.2.1
     ⟨"xyz789", "App/versions/xyz789"⟩ rfl rfl,
   ((skip_update_behavior envOk sCurrent false).2.2.2
     ⟨"abc123", "App/versions/abc123"⟩ rfl rfl rfl rfl).1⟩

/-! ### C7: environment preparation is idempotent -/

/-- C7: when the well-known interpreter entry-point already exists inside
the artifact's environment subpath, `ensure_venv` returns a handle to it
with no side effects: the state is untouched and no subprocess runs. -/
theorem ensure_venv_idempotent (env : Env) (s : State) (p : String)
    (h : s.venvs.contains p = true) :
    ensure_venv env s p = (Except.ok (pyPath p), s, []) := by
  unfold ensure_venv
  rw [if_pos h]

/-- Witness for C7: the up-to-date machine already has the venv for
`abc123`, so preparation returns the interpreter handle and does
nothing. -/
theorem ensure_venv_idempotent_witness :
    ensure_venv envOk sCurrent "App/versions/abc123" =
      (Except.ok (pyPath "App/versions/abc123"), sCurrent, []) :=
  ensure_venv_idempotent envOk sCurrent "App/versions/abc123" rfl

/-! ### C8: force re-runs the pipeline without a new artifact -/

/-- C8: with `force` set, the latest revision equal to the recorded one and
its artifact already on disk, the full install pipeline still runs: the
store is unchanged (no download, no extraction — no `fetchArchive` effect
at all), dependency installation re-runs, the venv is recreated if its
interpreter is missing, and the pointer is re-written with the same
revision id. -/
theorem force_reinstall_behavior (env : Env) (s : State) (r : PointerRecord)
    (hrec : s.pointer = PointerFile.record r)
    (_hsha : r.sha = env.latestSha)
    (hstore : storeExists s env.latestSha = true)
    (hdb : env.defaultBranchOk = true) (hco : env.commitsOk = true)
    (hce : env.commitsEmpty = false)
    (hvc : env.venvCreateOk = true) (hpu : env.pipUpgradeOk = true)
    (hpi : env.pipInstallOk = true) :
    (main env ⟨false, true⟩ s).1 = Except.ok env.appExit
    ∧ (main env ⟨false, true⟩ s).2.1.store = s.store
    ∧ (main env ⟨false, true⟩ s).2.1.pointer =
        PointerFile.record ⟨env.latestSha, versionsPath env.latestSha⟩
    ∧ Effect.writePointer env.latestSha ∈ (main env ⟨false, true⟩ s).2.2
    ∧ Effect.runSubprocess "pipInstall" ∈ (main env ⟨false, true⟩ s).2.2
    ∧ (∀ sha2, Effect.fetchArchive sha2 ∉ (main env ⟨false, true⟩ s).2.2)
    ∧ (s.venvs.contains (versionsPath env.latestSha) = false →
        Effect.runSubprocess "venv" ∈ (main env ⟨false, true⟩ s).2.2) := by
  have hrc : read_current s = Except.ok (some r) := by
    unfold read_current
    rw [hrec]
  have hin := install_noop env s env.latestSha hstore
  obtain ⟨s2, fx4, hev, hst2, hpt2, hud2, hven, hcls⟩ :=
    ensure_venv_success env s (versionsPath env.latestSha) hvc hpu
  have hni := needs_install_force (some r) env.latestSha s
  have hmain := main_install_run_ok env true s (some r)
    (versionsPath env.latestSha) s s2 (pyPath (versionsPath env.latestSha))
    [] fx4 hrc hdb hco hce hni hin hev hpi
  refine ⟨?_, ?_, ?_, ?_, ?_, ?_, ?_⟩
  · rw [hmain]
  · rw [hmain]
    unfold write_current
    simp only
    rw [seed_data_if_missing_store, hst2]
  · rw [hmain]
    rfl
  · rw [hmain]
    simp
  · rw [hmain]
    simp
  · intro sha2 hmem
    rw [hmain] at hmem
    simp at hmem
    rcases hmem with h0 | h0
    · obtain ⟨c, hc⟩ := hcls _ h0
      exact Effect.noConfusion hc
    · rcases seed_data_if_missing_effects env s2 _ h0 with h1 | h1 <;>
        exact Effect.noConfusion h1
  · intro hvf
    have hm := hven hvf
    rw [hmain]
    simp
    tauto

/-- Witness for C8: up-to-date machine, `force` run: app exits 0, the store
is unchanged, the pointer is re-written with the same revision id, and the
write is in the trace. -/
theorem force_reinstall_behavior_witness :
    (main envOk ⟨false, true⟩ sCurrent).1 = Except.ok 0
    ∧ (main envOk ⟨false, true⟩ sCurrent).2.1.store = sCurrent.store
    ∧ (main envOk ⟨false, true⟩ sCurrent).2.1.pointer =
        PointerFile.record ⟨"abc123", versionsPath "abc123"⟩
    ∧ Effect.writePointer "abc123" ∈ (main envOk ⟨false, true⟩ sCurrent).2.2 :=
  ⟨(force_reinstall_behavior envOk sCurrent ⟨"abc123", "App/versions/abc123"⟩
      rfl rfl rfl rfl rfl rfl rfl rfl rfl).1,
   (force_reinstall_behavior envOk sCurrent ⟨"abc123", "App/versions/abc123"⟩
      rfl rfl rfl rfl rfl rfl rfl rfl rfl).2.1,
   (force_reinstall_behavior envOk sCurrent ⟨"abc123", "App/versions/abc123"⟩
      rfl rfl rfl rfl rfl rfl rfl rfl rfl).2.2.1,
   (force_reinstall_behavior envOk sCurrent ⟨"abc123", "App/versions/abc123"⟩
      rfl rfl rfl rfl rfl rfl rfl rfl rfl).2.2.2.1⟩

/-! ### C9: data seeding is best-effort -/

/-- C9: when the user data file is missing and no seed source can be found
in the installed copy, seeding degrades to a warning and the install
pipeline still completes: the pointer is written, the app is launched, the
run succeeds with the app's exit code, and the data file stays absent. -/
theorem seed_best_effort (env : Env) (s : State)
    (hud : s.userData = none) (h1 : env.seed1 = false) (h2 : env.seed2 = false)
    (hrec : s.pointer = PointerFile.absent)
    (hstore : storeExists s env.latestSha = true)
    (hdb : env.defaultBranchOk = true) (hco : env.commitsOk = true)
    (hce : env.commitsEmpty = false)
    (hvc : env.venvCreateOk = true) (hpu : env.pipUpgradeOk = true)
    (hpi : env.pipInstallOk = true) :
    (main env ⟨false, false⟩ s).1 = Except.ok env.appExit
    ∧ Effect.seedWarn ∈ (main env ⟨false, false⟩ s).2.2
    ∧ Effect.writePointer env.latestSha ∈ (main env ⟨false, false⟩ s).2.2
    ∧ Effect.launch (pyPath (versionsPath env.latestSha)) ∈
        (main env ⟨false, false⟩ s).2.2
    ∧ (main env ⟨false, false⟩ s).2.1.pointer =
        PointerFile.record ⟨env.latestSha, versionsPath env.latestSha⟩ := by
  have hrc : read_current s = Except.ok none := by
    unfold read_current
    rw [hrec]
  have hin := install_noop env s env.latestSha hstore
  obtain ⟨s2, fx4, hev, hst2, hpt2, hud2, hven, hcls⟩ :=
    ensure_venv_success env s (versionsPath env.latestSha) hvc hpu
  have hni := needs_install_absent false env.latestSha s
  have hmain := main_install_run_ok env false s none
    (versionsPath env.latestSha) s s2 (pyPath (versionsPath env.latestSha))
    [] fx4 hrc hdb hco hce hni hin hev hpi
  have hseed : seed_data_if_missing env s2 = (s2, [Effect.seedWarn]) :=
    seed_data_if_missing_miss env s2 (hud2.trans hud) h1 h2
  rw [hmain, hseed]
  refine ⟨rfl, ?_, ?_, ?_, rfl⟩ <;> simp

/-- Witness for C9: fresh pointer, artifact already on disk, no seed source
anywhere: the run warns, writes the pointer and launches, exiting 0. -/
theorem seed_best_effort_witness :
    (main envNoSeed ⟨false, false⟩ sStoreOnly).1 = Except.ok 0
    ∧ Effect.seedWarn ∈ (main envNoSeed ⟨false, false⟩ sStoreOnly).2.2
    ∧ Effect.writePointer "abc123" ∈
        (main envNoSeed ⟨false, false⟩ sStoreOnly).2.2 :=
  ⟨(seed_best_effort envNoSeed sStoreOnly rfl rfl rfl rfl rfl rfl rfl rfl
      rfl rfl rfl).1,
   (seed_best_effort envNoSeed sStoreOnly rfl rfl rfl rfl rfl rfl rfl rfl
      rfl rfl rfl).2.1,
   (seed_best_effort envNoSeed sStoreOnly rfl rfl rfl rfl rfl rfl rfl rfl
      rfl rfl rfl).2.2.1⟩

/-! ### C10: seeding never overwrites existing user data -/

/-- C10: when the destination data file already exists,
`seed_data_if_missing` returns immediately with no effects and the file's
contents are unchanged, whatever candidate sources the artifact offers. -/
theorem seed_never_overwrites (env : Env) (s : State) (c : String)
    (h : s.userData = some c) :
    seed_data_if_missing env s = (s, []) ∧
      (seed_data_if_missing env s).1.userData = some c := by
  have he : seed_data_if_missing env s = (s, []) := by
    unfold seed_data_if_missing
    rw [h]
  exact ⟨he, by rw [he]; exact h⟩

/-- Witness for C10: the up-to-date machine has user data, and the
environment offers a seed source; seeding still does nothing. -/
theorem seed_never_overwrites_witness :
    seed_data_if_missing envOk sCurrent = (sCurrent, []) ∧
      (seed_data_if_missing envOk sCurrent).1.userData = some "user-data" :=
  seed_never_overwrites envOk sCurrent "user-data" rfl

end Bootstrap
